import Mathlib

/-!
Verification development for the transaction-assembly and decoy-selection
engine of `src/lib/Transfer.ts` (turtlecoin-wallet-backend).

The source file is translated into a shallow embedding: external
capabilities (daemon, subwallets, crypto utilities, parameter validators)
become structures of pure functions, asynchronous/fallible calls become
`Except`, and the instrumented run records the observables the source
exposes through side effects (the final state of the caller's destination
array, and how many decoy-fetch / relay network calls were made).
-/

set_option linter.unusedVariables false

namespace Transfer

/-- Modelled from the spec: the error kinds of `WalletError.ts` (not under
`src/`) that `Transfer.ts` constructs or that §7 of the spec names as
validation subkinds. -/
inductive WalletErrorCode where
  | SUCCESS
  | NOT_ENOUGH_FAKE_OUTPUTS
  | DAEMON_OFFLINE
  | DAEMON_ERROR
  | UNKNOWN_ERROR
  | INVALID_DESTINATION
  | PAYMENT_ID_CONFLICT
  | UNKNOWN_OWN_ADDRESS
  | INSUFFICIENT_FUNDS
  | INVALID_MIXIN
  | INVALID_PAYMENT_ID_FORMAT
deriving DecidableEq, Repr

/-- Modelled from the spec: a `WalletError` is a kind plus an optional
human message (empty when the one-argument constructor is used in the
source). -/
structure WalletError where
  errorCode : WalletErrorCode
  customMessage : String
deriving DecidableEq, Repr

/-- Modelled from the spec: the shared success sentinel exported by
`WalletError.ts` and compared against with `deepEqual` (structural
equality) in the source. -/
def SUCCESS : WalletError := ⟨WalletErrorCode.SUCCESS, ""⟩

/-- Modelled from the spec: the fields of `TxInputAndOwner.input`
(`Types.ts`, not under `src/`) that `Transfer.ts` reads. -/
structure TransactionInput where
  transactionPublicKey : String
  transactionIndex : Nat
  globalOutputIndex : Nat
  amount : Nat
  key : String
deriving DecidableEq, Repr

/-- Modelled from the spec: an `OwnedInput` — the transaction input plus
the owning subwallet's spend keys. -/
structure TxInputAndOwner where
  input : TransactionInput
  publicSpendKey : String
  privateSpendKey : String
deriving DecidableEq, Repr

/-- Modelled from the spec: a ring participant `{globalIndex, key}` as the
source constructs it at the end of `getRingParticipants`. -/
structure RandomOutput where
  globalIndex : Nat
  key : String
deriving DecidableEq, Repr

/-- Modelled from the spec: a decoded address — spend/view public keys
plus the payment ID embedded in an integrated address (empty when there is
none). -/
structure DecodedAddress where
  publicSpendKey : String
  publicViewKey : String
  paymentId : String
deriving DecidableEq, Repr

/-- Modelled from the spec: a destination handed to the signing
capability: an amount plus decoded address keys. -/
structure TxDestination where
  amount : Nat
  keys : DecodedAddress
deriving DecidableEq, Repr

/-- Modelled from the spec: the per-input `SpendableOutput` record built in
`sendTransactionAdvanced`; the source's nested `input` sub-object
(`privateEphemeral`, `privateSpendKey`, `publicSpendKey`) is inlined. -/
structure Output where
  amount : Nat
  globalIndex : Nat
  index : Nat
  privateEphemeral : String
  privateSpendKey : String
  publicSpendKey : String
  key : String
  keyImage : String
deriving DecidableEq, Repr

/-- Modelled from the spec: the result of the build/signing capability —
raw transaction bytes plus the transaction hash. -/
structure CreatedTransaction where
  rawTransaction : String
  hash : String
deriving DecidableEq, Repr

/-- Modelled from the spec: the daemon capability used by `Transfer.ts`.
`sendTransaction` may throw (transport failure / timeout), modelled as
`Except String Bool` where the error branch is the thrown value. -/
structure Daemon where
  networkBlockCount : Nat
  nodeFee : String × Nat
  getRandomOutputsByAmount : List Nat → Nat → List (Nat × List (Nat × String))
  sendTransaction : String → Except String Bool

/-- Modelled from the spec: the wallet-state capability used by
`Transfer.ts`. `transactionInputsForAmount` returns the selected inputs
and the covered amount. -/
structure SubWallets where
  addresses : List String
  primaryAddress : String
  privateViewKey : String
  transactionInputsForAmount : Nat → List String → Nat → List TxInputAndOwner × Nat

/-- Modelled from the spec: the crypto capability (`CnUtils`,
`turtlecoin-utils`). `createTransaction` may fail with an arbitrary error;
the error branch carries `err.toString()`. -/
structure CryptoCapability where
  decodeAddress : String → DecodedAddress
  generateKeyImage : String → String → String → String → Nat → String × String
  createTransaction :
    List TxDestination → List Output → List (List RandomOutput) →
    Nat → Nat → String → Except String CreatedTransaction

/-- Modelled from the spec: the parameter-validation stage functions of
`ValidateParameters.ts` (not under `src/`); each is a pure function
returning `SUCCESS` or a specific error. Only their orchestration in
`validateTransaction` is code under `src/`. -/
structure Validators where
  validateDestinations : List (String × Nat) → WalletError
  validateIntegratedAddresses : List (String × Nat) → String → WalletError
  validateOurAddresses : List String → SubWallets → WalletError
  validateAmount : List (String × Nat) → Nat → List String → SubWallets → Nat → WalletError
  validateMixin : Nat → Nat → WalletError
  validatePaymentID : String → WalletError

/-- Modelled from the spec: the configuration values `Transfer.ts` reads
(`config.mixinLimits.getDefaultMixinByHeight` flattened to a function
field, and `config.minimumFee`). -/
structure Config where
  getDefaultMixinByHeight : Nat → Nat
  minimumFee : Nat

/-- Modelled from the spec: `prettyPrintAmount` of `Utilities.ts` (not
under `src/`) renders an atomic amount as a human-readable formatted
value; its exact formatting is irrelevant to every claim, only that the
message names the amount. -/
def prettyPrintAmount (amount : Nat) : String := toString amount

/-- Message built when an amount has no bucket in the daemon response
(`Transfer.ts` lines 245-251). -/
def notEnoughMsgMissing (amount : Nat) : String :=
  "Failed to get any matching outputs for amount " ++ toString amount ++
  " (" ++ prettyPrintAmount amount ++ "). Further explanation here: " ++
  "https://gist.github.com/zpalmtree/80b3e80463225bcfb8f8432043cb594c"

/-- Message built when a bucket is judged insufficient (`Transfer.ts`
lines 253-261 and 279-287); `needed` is the source's `requestedOuts`
variable and `found` the length the source computed. -/
def notEnoughMsgInsufficient (amount needed found : Nat) : String :=
  "Failed to get enough matching outputs for amount " ++ toString amount ++
  " (" ++ prettyPrintAmount amount ++ "). Needed outputs: " ++ toString needed ++
  " , found outputs: " ++ toString found ++ ". Further explanation here: " ++
  "https://gist.github.com/zpalmtree/80b3e80463225bcfb8f8432043cb594c"

/-- In the source (line 242), `foundOutputs` is the whole `[amount,
outputs]` pair returned by `_.find` over the daemon response, so the
JavaScript property access `foundOutputs.length` (lines 253, 258) is the
tuple arity `2` — not the size of the decoy bucket. This definition
embeds that dynamic semantics. -/
def foundOutputsLength (foundOutputs : Nat × List (Nat × String)) : Nat := 2

/-- The source's `const amounts: number[] = inputs.map((input) =>
input.input.amount)` (line 232): one amount per input, duplicates kept. -/
def amountsOf (inputs : List TxInputAndOwner) : List Nat :=
  inputs.map (fun input => input.input.amount)

/-- First validation loop of `getRingParticipants` (lines 240-262): for
each requested amount in order, find the first response pair whose amount
matches; missing amount or a "short" found pair returns the corresponding
error, otherwise continue. Returns `none` when the whole loop passes. -/
def checkAmountsPresent (outs : List (Nat × List (Nat × String)))
    (mixin requestedOuts : Nat) : List Nat → Option WalletError
  | [] => none
  | amount :: rest =>
    match outs.find? (fun p => p.1 == amount) with
    | none =>
      some ⟨WalletErrorCode.NOT_ENOUGH_FAKE_OUTPUTS, notEnoughMsgMissing amount⟩
    | some foundOutputs =>
      if foundOutputsLength foundOutputs < mixin then
        some ⟨WalletErrorCode.NOT_ENOUGH_FAKE_OUTPUTS,
              notEnoughMsgInsufficient amount requestedOuts (foundOutputsLength foundOutputs)⟩
      else
        checkAmountsPresent outs mixin requestedOuts rest

/-- Second loop of `getRingParticipants` (lines 278-295): walk the
response buckets in response order; a bucket with fewer than `mixin`
entries fails, otherwise its entries are reshaped into `{globalIndex,
key}` pairs in source order and appended. -/
def buildRandomOuts (mixin requestedOuts : Nat) :
    List (Nat × List (Nat × String)) → Except WalletError (List (List RandomOutput))
  | [] => Except.ok []
  | (amount, outputs) :: rest =>
    if outputs.length < mixin then
      Except.error ⟨WalletErrorCode.NOT_ENOUGH_FAKE_OUTPUTS,
        notEnoughMsgInsufficient amount requestedOuts outputs.length⟩
    else
      match buildRandomOuts mixin requestedOuts rest with
      | Except.error e => Except.error e
      | Except.ok acc =>
        Except.ok ((outputs.map (fun p => RandomOutput.mk p.1 p.2)) :: acc)

/-- Shallow embedding of `getRingParticipants` (`Transfer.ts` lines
219-298). `getRandomOutputsByAmount` stands for the daemon fetch; the
second component of the result counts how many times that network call was
made during the run (the source calls it exactly once, after the
`mixin === 0` early return). -/
def getRingParticipants (inputs : List TxInputAndOwner) (mixin : Nat)
    (getRandomOutputsByAmount : List Nat → Nat → List (Nat × List (Nat × String))) :
    Except WalletError (List (List RandomOutput)) × Nat :=
  if mixin = 0 then
    (Except.ok [], 0)
  else
    let requestedOuts := mixin + 1
    let amounts := amountsOf inputs
    let outs := getRandomOutputsByAmount amounts mixin
    let result :=
      if outs.length = 0 then
        Except.error ⟨WalletErrorCode.DAEMON_OFFLINE, ""⟩
      else
        match checkAmountsPresent outs mixin requestedOuts amounts with
        | some e => Except.error e
        | none =>
          if outs.length ≠ amounts.length then
            Except.error ⟨WalletErrorCode.NOT_ENOUGH_FAKE_OUTPUTS, ""⟩
          else
            buildRandomOuts mixin requestedOuts outs
    (result, 1)

/-- Shallow embedding of `validateTransaction` (`Transfer.ts` lines
305-363): runs the stage validators in the source's fixed order, returning
the first result that is not structurally equal to `SUCCESS` (the source's
`deepEqual(error, SUCCESS)` test), else `SUCCESS`. -/
def validateTransaction (v : Validators) (destinations : List (String × Nat))
    (mixin fee : Nat) (paymentID : String) (subWalletsToTakeFrom : List String)
    (changeAddress : String) (currentHeight : Nat) (subWallets : SubWallets) :
    WalletError :=
  let e1 := v.validateDestinations destinations
  if e1 ≠ SUCCESS then e1 else
  let e2 := v.validateIntegratedAddresses destinations paymentID
  if e2 ≠ SUCCESS then e2 else
  let e3 := v.validateOurAddresses subWalletsToTakeFrom subWallets
  if e3 ≠ SUCCESS then e3 else
  let e4 := v.validateAmount destinations fee subWalletsToTakeFrom subWallets currentHeight
  if e4 ≠ SUCCESS then e4 else
  let e5 := v.validateMixin mixin currentHeight
  if e5 ≠ SUCCESS then e5 else
  let e6 := v.validatePaymentID paymentID
  if e6 ≠ SUCCESS then e6 else
  let e7 := v.validateOurAddresses [changeAddress] subWallets
  if e7 ≠ SUCCESS then e7 else
  SUCCESS

/-- Specification-side combinator: the first entry of the list that is not
`SUCCESS`, else `SUCCESS`. Used to state that `validateTransaction` is an
ordered, short-circuiting gate chain. -/
def firstFailure : List WalletError → WalletError
  | [] => SUCCESS
  | e :: rest => if e ≠ SUCCESS then e else firstFailure rest

/-- Default for `mixin` (`Transfer.ts` lines 87-91). -/
def effectiveMixin (config : Config) (daemon : Daemon) (mixinArg : Option Nat) : Nat :=
  match mixinArg with
  | none => config.getDefaultMixinByHeight daemon.networkBlockCount
  | some m => m

/-- Default for `fee` (`Transfer.ts` lines 93-95). -/
def effectiveFee (config : Config) (feeArg : Option Nat) : Nat :=
  match feeArg with
  | none => config.minimumFee
  | some f => f

/-- Default for `paymentID` (`Transfer.ts` lines 97-99). -/
def effectivePaymentID (paymentIDArg : Option String) : String :=
  match paymentIDArg with
  | none => ""
  | some p => p

/-- Default for `subWalletsToTakeFrom`: `undefined` or an empty list falls
back to all wallet addresses (`Transfer.ts` lines 101-103). -/
def effectiveSubWalletsToTakeFrom (subWallets : SubWallets)
    (fromArg : Option (List String)) : List String :=
  match fromArg with
  | none => subWallets.addresses
  | some l => if l.length = 0 then subWallets.addresses else l

/-- Default for `changeAddress`: `undefined` or the empty string falls
back to the primary address (`Transfer.ts` lines 105-107). -/
def effectiveChangeAddress (subWallets : SubWallets)
    (changeArg : Option String) : String :=
  match changeArg with
  | none => subWallets.primaryAddress
  | some c => if c = "" then subWallets.primaryAddress else c

/-- Node-fee request shaping (`Transfer.ts` lines 109-114): when the
daemon advertises a nonzero node fee, the fee destination is pushed onto
the caller's `addressesAndAmounts` array. The embedding returns the
array's resulting value. -/
def shapedDestinations (daemon : Daemon) (addressesAndAmounts : List (String × Nat)) :
    List (String × Nat) :=
  if daemon.nodeFee.2 ≠ 0 then
    addressesAndAmounts ++ [(daemon.nodeFee.1, daemon.nodeFee.2)]
  else
    addressesAndAmounts

/-- The source's `totalAmount` (`Transfer.ts` lines 127-129): sum of all
destination amounts (node fee already appended) plus the network fee. -/
def totalAmountOf (addressesAndAmounts : List (String × Nat)) (fee : Nat) : Nat :=
  (addressesAndAmounts.map (fun p => p.2)).sum + fee

/-- One step of the `transfers` map (`Transfer.ts` lines 132-144): decode
the address, overwrite the effective payment ID when the decoded address
embeds one (the source mutates the captured `paymentID` variable
left-to-right), and append the destination record. -/
def transferStep (crypto : CryptoCapability)
    (acc : List TxDestination × String) (p : String × Nat) :
    List TxDestination × String :=
  let decoded := crypto.decodeAddress p.1
  let pid := if decoded.paymentId ≠ "" then decoded.paymentId else acc.2
  (acc.1 ++ [⟨p.2, decoded⟩], pid)

/-- The `transfers` list and the payment ID after the map's mutation
(`Transfer.ts` lines 132-144). -/
def transfersOf (crypto : CryptoCapability)
    (addressesAndAmounts : List (String × Nat)) (paymentID : String) :
    List TxDestination × String :=
  addressesAndAmounts.foldl (transferStep crypto) ([], paymentID)

/-- Input selection (`Transfer.ts` lines 146-148): the owned inputs
returned by the wallet-state capability for `totalAmount`. -/
def inputsOf (daemon : Daemon) (subWallets : SubWallets)
    (addressesAndAmounts : List (String × Nat)) (fee : Nat)
    (subWalletsToTakeFrom : List String) : List TxInputAndOwner :=
  (subWallets.transactionInputsForAmount (totalAmountOf addressesAndAmounts fee)
    subWalletsToTakeFrom daemon.networkBlockCount).1

/-- Per-input spendable-output records (`Transfer.ts` lines 150-172):
derive a key image per owned input, order-preserving. -/
def ourOutputsOf (crypto : CryptoCapability) (subWallets : SubWallets)
    (inputs : List TxInputAndOwner) : List Output :=
  inputs.map (fun input =>
    let ki := crypto.generateKeyImage input.input.transactionPublicKey
      subWallets.privateViewKey input.publicSpendKey input.privateSpendKey
      input.input.transactionIndex
    { amount := input.input.amount
      globalIndex := input.input.globalOutputIndex
      index := input.input.transactionIndex
      privateEphemeral := ki.2
      privateSpendKey := input.privateSpendKey
      publicSpendKey := input.publicSpendKey
      key := input.input.key
      keyImage := ki.1 })

/-- Result of the build phase: the created transaction or the error the
phase returned, how many decoy fetches were made, and the total passed to
input selection. -/
structure BuildResult where
  outcome : Except WalletError CreatedTransaction
  decoyFetches : Nat
  selectionRequest : Nat

/-- Value returned by the build phase of `sendTransactionAdvanced` (lines
174-197): the ring-participant resolution's error is returned as-is
(lines 178-180); an exception from the build/signing capability is caught
and wrapped as `UNKNOWN_ERROR` carrying `err.toString()` (lines
184-197). -/
def buildOutcome (crypto : CryptoCapability) (daemon : Daemon)
    (subWallets : SubWallets) (addressesAndAmounts : List (String × Nat))
    (mixin fee : Nat) (paymentID : String) (subWalletsToTakeFrom : List String) :
    Except WalletError CreatedTransaction :=
  match (getRingParticipants
      (inputsOf daemon subWallets addressesAndAmounts fee subWalletsToTakeFrom)
      mixin daemon.getRandomOutputsByAmount).1 with
  | Except.error e => Except.error e
  | Except.ok randomOuts =>
    match crypto.createTransaction (transfersOf crypto addressesAndAmounts paymentID).1
        (ourOutputsOf crypto subWallets
          (inputsOf daemon subWallets addressesAndAmounts fee subWalletsToTakeFrom))
        randomOuts mixin fee (transfersOf crypto addressesAndAmounts paymentID).2 with
    | Except.error err => Except.error ⟨WalletErrorCode.UNKNOWN_ERROR, err⟩
    | Except.ok tx => Except.ok tx

/-- Shallow embedding of `sendTransactionAdvanced` lines 125-197: the
build phase's value together with its observables — the number of decoy
fetches `getRingParticipants` performed and the `totalAmount` passed to
input selection (both computed whatever the outcome). -/
def buildStage (crypto : CryptoCapability) (daemon : Daemon)
    (subWallets : SubWallets) (addressesAndAmounts : List (String × Nat))
    (mixin fee : Nat) (paymentID : String) (subWalletsToTakeFrom : List String) :
    BuildResult :=
  ⟨buildOutcome crypto daemon subWallets addressesAndAmounts mixin fee paymentID
      subWalletsToTakeFrom,
   (getRingParticipants
      (inputsOf daemon subWallets addressesAndAmounts fee subWalletsToTakeFrom)
      mixin daemon.getRandomOutputsByAmount).2,
   totalAmountOf addressesAndAmounts fee⟩

/-- The observables of a `sendTransactionAdvanced` run other than the
caller's array: the returned value, how many decoy-fetch and relay network
calls were made, and the total passed to input selection (`none` when
validation failed before selection). -/
structure RunDetail where
  result : Except WalletError String
  decoyFetches : Nat
  relayAttempts : Nat
  selectionRequest : Option Nat
deriving Repr

/-- Shallow embedding of `sendTransactionAdvanced` lines 116-213 after the
destination list has been shaped: validate (early return on failure, lines
116-123), build (lines 125-197), then relay (lines 199-210) — relay
success returns the built transaction's hash, an acknowledged `false`
returns `DAEMON_ERROR`, and a thrown transport failure returns
`DAEMON_OFFLINE`. -/
def runAfterShaping (crypto : CryptoCapability) (v : Validators) (daemon : Daemon)
    (subWallets : SubWallets) (addressesAndAmounts : List (String × Nat))
    (mixin fee : Nat) (paymentID : String) (subWalletsToTakeFrom : List String)
    (changeAddress : String) : RunDetail :=
  let error := validateTransaction v addressesAndAmounts mixin fee paymentID
    subWalletsToTakeFrom changeAddress daemon.networkBlockCount subWallets
  if error ≠ SUCCESS then
    ⟨Except.error error, 0, 0, none⟩
  else
    let b := buildStage crypto daemon subWallets addressesAndAmounts mixin fee
      paymentID subWalletsToTakeFrom
    match b.outcome with
    | Except.error e => ⟨Except.error e, b.decoyFetches, 0, some b.selectionRequest⟩
    | Except.ok tx =>
      match daemon.sendTransaction tx.rawTransaction with
      | Except.ok true =>
        ⟨Except.ok tx.hash, b.decoyFetches, 1, some b.selectionRequest⟩
      | Except.ok false =>
        ⟨Except.error ⟨WalletErrorCode.DAEMON_ERROR, ""⟩, b.decoyFetches, 1,
          some b.selectionRequest⟩
      | Except.error _ =>
        ⟨Except.error ⟨WalletErrorCode.DAEMON_OFFLINE, ""⟩, b.decoyFetches, 1,
          some b.selectionRequest⟩

/-- Full observable outcome of `sendTransactionAdvanced`: the returned
value plus the final state of the caller's `addressesAndAmounts` array
(the source pushes the node-fee destination onto that array in place) and
the run's network-call counts. -/
structure SendOutcome where
  result : Except WalletError String
  finalAddressesAndAmounts : List (String × Nat)
  decoyFetches : Nat
  relayAttempts : Nat
  selectionRequest : Option Nat
deriving Repr

/-- Shallow embedding of `sendTransactionAdvanced` (`Transfer.ts` lines
77-213): apply the parameter defaults (lines 87-107), shape the
destination list with the node fee (lines 109-114), then validate, build
and relay. -/
def sendTransactionAdvanced (config : Config) (crypto : CryptoCapability)
    (v : Validators) (daemon : Daemon) (subWallets : SubWallets)
    (addressesAndAmounts : List (String × Nat))
    (mixinArg : Option Nat) (feeArg : Option Nat) (paymentIDArg : Option String)
    (fromArg : Option (List String)) (changeArg : Option String) : SendOutcome :=
  let aaa := shapedDestinations daemon addressesAndAmounts
  let d := runAfterShaping crypto v daemon subWallets aaa
    (effectiveMixin config daemon mixinArg) (effectiveFee config feeArg)
    (effectivePaymentID paymentIDArg)
    (effectiveSubWalletsToTakeFrom subWallets fromArg)
    (effectiveChangeAddress subWallets changeArg)
  ⟨d.result, aaa, d.decoyFetches, d.relayAttempts, d.selectionRequest⟩

/-! Concrete fixtures used by witnesses and counterexamples. -/

/-- An owned input with the given amount; the other fields are irrelevant
to the decoy resolver. -/
def sampleInput (amount : Nat) : TxInputAndOwner :=
  ⟨⟨"txPubKey", 0, 0, amount, "outKey"⟩, "pubSpend", "privSpend"⟩

/-- Five decoys for amount 100 (the bucket of the C1 scenario). -/
def c1Bucket100 : List (Nat × String) :=
  [(1, "a"), (2, "b"), (3, "c"), (4, "d"), (5, "e")]

/-- Two decoys for amount 250 (the bucket of the C1 scenario). -/
def c1Bucket250 : List (Nat × String) := [(10, "x"), (11, "y")]

/-- Daemon response of the C1 scenario: buckets for amounts 100 and 250. -/
def c1Response : List Nat → Nat → List (Nat × List (Nat × String)) :=
  fun _ _ => [(100, c1Bucket100), (250, c1Bucket250)]

/-- Daemon response whose buckets come back in the opposite order to the
requested amounts, with a two-entry bucket for amount 100. -/
def c3Response : List Nat → Nat → List (Nat × List (Nat × String)) :=
  fun _ _ => [(250, [(9, "z")]), (100, [(5, "a"), (6, "b")])]

/-- Daemon response with two buckets for the single distinct amount 100. -/
def c5DoubleBucketResponse : List Nat → Nat → List (Nat × List (Nat × String)) :=
  fun _ _ => [(100, [(1, "a"), (2, "b")]), (100, [(3, "c"), (4, "d")])]

/-- Daemon response with one bucket for amount 100. -/
def c5SingleBucketResponse : List Nat → Nat → List (Nat × List (Nat × String)) :=
  fun _ _ => [(100, [(1, "a"), (2, "b")])]

/-- Daemon response with no buckets at all. -/
def noOutsResponse : List Nat → Nat → List (Nat × List (Nat × String)) :=
  fun _ _ => []

/-- Validators that all pass. -/
def okValidators : Validators :=
  ⟨fun _ => SUCCESS, fun _ _ => SUCCESS, fun _ _ => SUCCESS,
   fun _ _ _ _ _ => SUCCESS, fun _ _ => SUCCESS, fun _ => SUCCESS⟩

/-- Validators whose destination stage fails with INVALID_DESTINATION and
whose other stages pass. -/
def failDestValidators : Validators :=
  ⟨fun _ => ⟨WalletErrorCode.INVALID_DESTINATION, ""⟩, fun _ _ => SUCCESS,
   fun _ _ => SUCCESS, fun _ _ _ _ _ => SUCCESS, fun _ _ => SUCCESS,
   fun _ => SUCCESS⟩

/-- Crypto capability whose build step always succeeds with a fixed
transaction. -/
def trivialCrypto : CryptoCapability :=
  ⟨fun _ => ⟨"", "", ""⟩, fun _ _ _ _ _ => ("keyImage", "ephemeral"),
   fun _ _ _ _ _ _ => Except.ok ⟨"rawBytes", "txHash"⟩⟩

/-- Crypto capability whose build step always fails with a fixed error
message. -/
def failingCrypto : CryptoCapability :=
  ⟨fun _ => ⟨"", "", ""⟩, fun _ _ _ _ _ => ("keyImage", "ephemeral"),
   fun _ _ _ _ _ _ => Except.error "signing capability exploded"⟩

/-- Daemon with no node fee whose relay acknowledges success. -/
def relayOkDaemon : Daemon := ⟨0, ("", 0), noOutsResponse, fun _ => Except.ok true⟩

/-- Daemon with no node fee whose relay explicitly rejects. -/
def relayRejectDaemon : Daemon := ⟨0, ("", 0), noOutsResponse, fun _ => Except.ok false⟩

/-- Daemon with no node fee whose relay throws (transport failure). -/
def relayThrowDaemon : Daemon :=
  ⟨0, ("", 0), noOutsResponse, fun _ => Except.error "timeout"⟩

/-- Daemon advertising a nonzero node fee of 7 to address "feeAddr". -/
def feeDaemon : Daemon :=
  ⟨0, ("feeAddr", 7), noOutsResponse, fun _ => Except.ok true⟩

/-- Wallet state with one address and no selectable inputs. -/
def smallSubWallets : SubWallets :=
  ⟨["walletAddr"], "walletAddr", "viewKey", fun _ _ _ => ([], 0)⟩

/-- Configuration with default mixin 0 and minimum fee 0. -/
def zeroConfig : Config := ⟨fun _ => 0, 0⟩

/-! Theorems. -/

/-- On the empty bucket list `buildRandomOuts` returns the empty set; on
success in general it returns exactly the reshaped buckets in response
order, and every bucket passed the `mixin` sufficiency check. -/
theorem buildRandomOuts_ok {mixin r : Nat} :
    ∀ {outs : List (Nat × List (Nat × String))} {ros : List (List RandomOutput)},
      buildRandomOuts mixin r outs = Except.ok ros →
      ros = outs.map (fun b => b.2.map (fun p => RandomOutput.mk p.1 p.2)) ∧
      ∀ b ∈ outs, mixin ≤ b.2.length := by
  intro outs
  induction outs with
  | nil =>
    intro ros h
    simp only [buildRandomOuts, Except.ok.injEq] at h
    simp [← h]
  | cons p rest ih =>
    intro ros h
    obtain ⟨amount, outputs⟩ := p
    simp only [buildRandomOuts] at h
    by_cases hlen : outputs.length < mixin
    · rw [if_pos hlen] at h
      exact absurd h (by simp)
    · rw [if_neg hlen] at h
      cases hrec : buildRandomOuts mixin r rest with
      | error e =>
        rw [hrec] at h
        exact absurd h (by simp)
      | ok acc =>
        rw [hrec] at h
        simp only [Except.ok.injEq] at h
        obtain ⟨hshape, hsuff⟩ := ih hrec
        subst h
        constructor
        · simp [hshape]
        · intro b hb
          rcases List.mem_cons.mp hb with hb | hb
          · subst hb
            exact Nat.not_lt.mp hlen
          · exact hsuff b hb

/-- Claim C1 (code bug): on inputs with amounts [100, 100, 250], mixin 3,
and a response with a five-decoy bucket for 100 and a two-decoy bucket for
250, the code does not fail for amount 250 with needed 3 and found 2 as
the claim states; it fails for amount 100, reporting needed 4 (the
source's `requestedOuts = mixin + 1`) and found 2 — the `.length` of the
`[amount, outputs]` pair `_.find` returned, not the size of the bucket,
which actually holds five decoys. -/
theorem getRingParticipants_pair_length_bug :
    getRingParticipants [sampleInput 100, sampleInput 100, sampleInput 250] 3 c1Response =
      (Except.error ⟨WalletErrorCode.NOT_ENOUGH_FAKE_OUTPUTS,
        notEnoughMsgInsufficient 100 4 2⟩, 1) ∧
    c1Bucket100.length = 5 ∧ c1Bucket250.length = 2 :=
  ⟨rfl, rfl, rfl⟩

/-- Claim C2 (counterexample): with one input and mixin 0 the resolver
returns the empty set, whose length 0 does not match the number of inputs
— the claim's "length matches the number of inputs, every per-input list
empty" is false. -/
theorem getRingParticipants_mixin_zero_counterexample :
    getRingParticipants [sampleInput 100] 0 noOutsResponse =
      (Except.ok ([] : List (List RandomOutput)), 0) ∧
    ([] : List (List RandomOutput)).length ≠ [sampleInput 100].length :=
  ⟨rfl, by decide⟩

/-- Claim C2 (amended): with mixin 0 the resolver performs zero network
calls and returns the empty ring-participant set (length 0, regardless of
how many inputs there are). -/
theorem getRingParticipants_mixin_zero (inputs : List TxInputAndOwner)
    (f : List Nat → Nat → List (Nat × List (Nat × String))) :
    getRingParticipants inputs 0 f = (Except.ok [], 0) := rfl

/-- Claim C3 (counterexample): with inputs of amounts [100, 250], mixin 1,
and a response whose buckets arrive as [250-bucket, 100-bucket] (sizes 1
and 2), resolution succeeds, but the first emitted list is the 250 bucket
although the first input's amount is 100 (no re-alignment to input
order), and the second list has length 2, not mixin = 1. -/
theorem getRingParticipants_shape_counterexample :
    (getRingParticipants [sampleInput 100, sampleInput 250] 1 c3Response).1 =
      Except.ok [[RandomOutput.mk 9 "z"],
                 [RandomOutput.mk 5 "a", RandomOutput.mk 6 "b"]] ∧
    amountsOf [sampleInput 100, sampleInput 250] = [100, 250] ∧
    c3Response [100, 250] 1 = [(250, [(9, "z")]), (100, [(5, "a"), (6, "b")])] ∧
    [RandomOutput.mk 5 "a", RandomOutput.mk 6 "b"].length ≠ 1 :=
  ⟨rfl, rfl, rfl, by decide⟩

/-- Claim C3 (amended): every successful resolution with mixin > 0
returns exactly the response's buckets reshaped into {globalIndex, key}
pairs in source order, in the response's bucket order (not re-aligned to
the inputs), with as many lists as inputs, and each list of length at
least mixin (more than mixin entries are passed through untruncated). -/
theorem getRingParticipants_success_shape (inputs : List TxInputAndOwner)
    (mixin : Nat) (f : List Nat → Nat → List (Nat × List (Nat × String)))
    (ros : List (List RandomOutput)) (hm : 0 < mixin)
    (hok : (getRingParticipants inputs mixin f).1 = Except.ok ros) :
    ros = (f (amountsOf inputs) mixin).map
        (fun b => b.2.map (fun p => RandomOutput.mk p.1 p.2)) ∧
    ros.length = inputs.length ∧
    ∀ l ∈ ros, mixin ≤ l.length := by
  have hm0 : ¬ mixin = 0 := by omega
  simp only [getRingParticipants, if_neg hm0] at hok
  by_cases h0 : (f (amountsOf inputs) mixin).length = 0
  · rw [if_pos h0] at hok
    exact absurd hok (by simp)
  · rw [if_neg h0] at hok
    cases hc : checkAmountsPresent (f (amountsOf inputs) mixin) mixin (mixin + 1)
        (amountsOf inputs) with
    | some e =>
      rw [hc] at hok
      exact absurd hok (by simp)
    | none =>
      rw [hc] at hok
      by_cases hl : (f (amountsOf inputs) mixin).length ≠ (amountsOf inputs).length
      · rw [if_pos hl] at hok
        exact absurd hok (by simp)
      · rw [if_neg hl] at hok
        push_neg at hl
        obtain ⟨hshape, hsuff⟩ := buildRandomOuts_ok hok
        refine ⟨hshape, ?_, ?_⟩
        · rw [hshape, List.length_map, hl]
          simp [amountsOf]
        · intro l hl'
          rw [hshape] at hl'
          obtain ⟨b, hb, rfl⟩ := List.mem_map.mp hl'
          simpa using hsuff b hb

/-- Claim C3 (witness for the amended theorem): one input of amount 100,
mixin 1, a single two-entry bucket — resolution succeeds and the
conclusion evaluates. -/
theorem getRingParticipants_success_shape_witness :
    [[RandomOutput.mk 1 "a", RandomOutput.mk 2 "b"]] =
      (c5SingleBucketResponse (amountsOf [sampleInput 100]) 1).map
        (fun b => b.2.map (fun p => RandomOutput.mk p.1 p.2)) ∧
    [[RandomOutput.mk 1 "a", RandomOutput.mk 2 "b"]].length =
      [sampleInput 100].length ∧
    ∀ l ∈ [[RandomOutput.mk 1 "a", RandomOutput.mk 2 "b"]], 1 ≤ l.length := by
  have h := getRingParticipants_success_shape [sampleInput 100] 1
    c5SingleBucketResponse [[RandomOutput.mk 1 "a", RandomOutput.mk 2 "b"]]
    (by decide) rfl
  exact ⟨by decide, h.2.1, h.2.2⟩

/-- Claim C4: with mixin > 0 and a response containing zero buckets,
resolution fails with the connectivity-class DAEMON_OFFLINE error (never
an insufficiency error), before any per-amount check is reached. -/
theorem getRingParticipants_empty_response (inputs : List TxInputAndOwner)
    (mixin : Nat) (f : List Nat → Nat → List (Nat × List (Nat × String)))
    (hm : 0 < mixin) (hempty : f (amountsOf inputs) mixin = []) :
    getRingParticipants inputs mixin f =
      (Except.error ⟨WalletErrorCode.DAEMON_OFFLINE, ""⟩, 1) := by
  have hm0 : ¬ mixin = 0 := by omega
  simp only [getRingParticipants, if_neg hm0, hempty]
  simp

/-- Claim C4 (witness): one input, mixin 1, empty response — the resolver
returns DAEMON_OFFLINE after its single fetch. -/
theorem getRingParticipants_empty_response_witness :
    getRingParticipants [sampleInput 100] 1 noOutsResponse =
      (Except.error ⟨WalletErrorCode.DAEMON_OFFLINE, ""⟩, 1) :=
  getRingParticipants_empty_response [sampleInput 100] 1 noOutsResponse
    (by decide) rfl

/-- Claim C5 (counterexample): two inputs of amount 100, mixin 1, and a
response with two sufficient buckets for amount 100 — the number of
buckets (2) differs from the number of distinct amounts requested (1),
the response is non-empty and every requested amount has a sufficient
bucket, yet resolution succeeds instead of failing generically as the
claim demands: the code compares the bucket count against the requested
amounts counted with multiplicity, not against the distinct count. -/
theorem getRingParticipants_completeness_counterexample :
    (getRingParticipants [sampleInput 100, sampleInput 100] 1
        c5DoubleBucketResponse).1 =
      Except.ok [[RandomOutput.mk 1 "a", RandomOutput.mk 2 "b"],
                 [RandomOutput.mk 3 "c", RandomOutput.mk 4 "d"]] ∧
    ((c5DoubleBucketResponse [100, 100] 1).map Prod.fst).dedup.length = 1 ∧
    (c5DoubleBucketResponse [100, 100] 1).length = 2 :=
  ⟨rfl, by decide, rfl⟩

/-- Claim C5 (amended): with mixin > 0, a non-empty response in which the
per-amount presence/sufficiency pass finds no problem, if the number of
buckets differs from the number of requested amounts counted with
multiplicity (one per input), resolution fails with the generic
NOT_ENOUGH_FAKE_OUTPUTS error carrying no message. -/
theorem getRingParticipants_length_mismatch (inputs : List TxInputAndOwner)
    (mixin : Nat) (f : List Nat → Nat → List (Nat × List (Nat × String)))
    (hm : 0 < mixin)
    (hne : (f (amountsOf inputs) mixin).length ≠ 0)
    (hpres : checkAmountsPresent (f (amountsOf inputs) mixin) mixin (mixin + 1)
      (amountsOf inputs) = none)
    (hlen : (f (amountsOf inputs) mixin).length ≠ (amountsOf inputs).length) :
    getRingParticipants inputs mixin f =
      (Except.error ⟨WalletErrorCode.NOT_ENOUGH_FAKE_OUTPUTS, ""⟩, 1) := by
  have hm0 : ¬ mixin = 0 := by omega
  simp only [getRingParticipants, if_neg hm0, if_neg hne, hpres, if_pos hlen]

/-- Claim C5 (witness for the amended theorem): two inputs of amount 100,
mixin 1, one sufficient bucket — the bucket count 1 differs from the two
requested amounts and resolution fails with the bare generic error. -/
theorem getRingParticipants_length_mismatch_witness :
    getRingParticipants [sampleInput 100, sampleInput 100] 1
        c5SingleBucketResponse =
      (Except.error ⟨WalletErrorCode.NOT_ENOUGH_FAKE_OUTPUTS, ""⟩, 1) :=
  getRingParticipants_length_mismatch [sampleInput 100, sampleInput 100] 1
    c5SingleBucketResponse (by decide) (by decide) rfl (by decide)

section SendTheorems

variable (config : Config) (crypto : CryptoCapability) (v : Validators)
variable (daemon : Daemon) (subWallets : SubWallets)
variable (aaa : List (String × Nat)) (mixin fee : Nat) (pid : String)
variable (fromA : List String) (ch : String)

/-- Unfolding lemma: `sendTransactionAdvanced` is the shaped run with the
effective argument values, and the caller's array ends up in the shaped
state in every branch. -/
theorem sendTransactionAdvanced_eq (arr : List (String × Nat))
    (mixinArg feeArg : Option Nat) (paymentIDArg : Option String)
    (fromArg : Option (List String)) (changeArg : Option String) :
    sendTransactionAdvanced config crypto v daemon subWallets arr
        mixinArg feeArg paymentIDArg fromArg changeArg =
      ⟨(runAfterShaping crypto v daemon subWallets (shapedDestinations daemon arr)
          (effectiveMixin config daemon mixinArg) (effectiveFee config feeArg)
          (effectivePaymentID paymentIDArg)
          (effectiveSubWalletsToTakeFrom subWallets fromArg)
          (effectiveChangeAddress subWallets changeArg)).result,
        shapedDestinations daemon arr,
        (runAfterShaping crypto v daemon subWallets (shapedDestinations daemon arr)
          (effectiveMixin config daemon mixinArg) (effectiveFee config feeArg)
          (effectivePaymentID paymentIDArg)
          (effectiveSubWalletsToTakeFrom subWallets fromArg)
          (effectiveChangeAddress subWallets changeArg)).decoyFetches,
        (runAfterShaping crypto v daemon subWallets (shapedDestinations daemon arr)
          (effectiveMixin config daemon mixinArg) (effectiveFee config feeArg)
          (effectivePaymentID paymentIDArg)
          (effectiveSubWalletsToTakeFrom subWallets fromArg)
          (effectiveChangeAddress subWallets changeArg)).relayAttempts,
        (runAfterShaping crypto v daemon subWallets (shapedDestinations daemon arr)
          (effectiveMixin config daemon mixinArg) (effectiveFee config feeArg)
          (effectivePaymentID paymentIDArg)
          (effectiveSubWalletsToTakeFrom subWallets fromArg)
          (effectiveChangeAddress subWallets changeArg)).selectionRequest⟩ := rfl

/-- Projection lemma for the returned value. -/
theorem sendTransactionAdvanced_result (arr : List (String × Nat))
    (mixinArg feeArg : Option Nat) (paymentIDArg : Option String)
    (fromArg : Option (List String)) (changeArg : Option String) :
    (sendTransactionAdvanced config crypto v daemon subWallets arr
        mixinArg feeArg paymentIDArg fromArg changeArg).result =
      (runAfterShaping crypto v daemon subWallets (shapedDestinations daemon arr)
        (effectiveMixin config daemon mixinArg) (effectiveFee config feeArg)
        (effectivePaymentID paymentIDArg)
        (effectiveSubWalletsToTakeFrom subWallets fromArg)
        (effectiveChangeAddress subWallets changeArg)).result := rfl

/-- Projection lemma for the relay-call count. -/
theorem sendTransactionAdvanced_relayAttempts (arr : List (String × Nat))
    (mixinArg feeArg : Option Nat) (paymentIDArg : Option String)
    (fromArg : Option (List String)) (changeArg : Option String) :
    (sendTransactionAdvanced config crypto v daemon subWallets arr
        mixinArg feeArg paymentIDArg fromArg changeArg).relayAttempts =
      (runAfterShaping crypto v daemon subWallets (shapedDestinations daemon arr)
        (effectiveMixin config daemon mixinArg) (effectiveFee config feeArg)
        (effectivePaymentID paymentIDArg)
        (effectiveSubWalletsToTakeFrom subWallets fromArg)
        (effectiveChangeAddress subWallets changeArg)).relayAttempts := rfl

/-- Projection lemma for the amount requested from input selection. -/
theorem sendTransactionAdvanced_selectionRequest (arr : List (String × Nat))
    (mixinArg feeArg : Option Nat) (paymentIDArg : Option String)
    (fromArg : Option (List String)) (changeArg : Option String) :
    (sendTransactionAdvanced config crypto v daemon subWallets arr
        mixinArg feeArg paymentIDArg fromArg changeArg).selectionRequest =
      (runAfterShaping crypto v daemon subWallets (shapedDestinations daemon arr)
        (effectiveMixin config daemon mixinArg) (effectiveFee config feeArg)
        (effectivePaymentID paymentIDArg)
        (effectiveSubWalletsToTakeFrom subWallets fromArg)
        (effectiveChangeAddress subWallets changeArg)).selectionRequest := rfl

/-- When validation fails, the shaped run returns exactly that error with
zero decoy fetches, zero relay attempts and no input selection. -/
theorem runAfterShaping_validate_fail
    (h : validateTransaction v aaa mixin fee pid fromA ch
      daemon.networkBlockCount subWallets ≠ SUCCESS) :
    runAfterShaping crypto v daemon subWallets aaa mixin fee pid fromA ch =
      ⟨Except.error (validateTransaction v aaa mixin fee pid fromA ch
        daemon.networkBlockCount subWallets), 0, 0, none⟩ := by
  simp only [runAfterShaping]
  rw [if_pos h]

/-- The build stage always records the source's `totalAmount` as the
amount passed to input selection. -/
theorem buildStage_selectionRequest :
    (buildStage crypto daemon subWallets aaa mixin fee pid fromA).selectionRequest =
      totalAmountOf aaa fee := rfl

/-- When validation passes, the shaped run requests input selection for
the source's `totalAmount`, whatever the build and relay outcomes. -/
theorem runAfterShaping_selection
    (h : validateTransaction v aaa mixin fee pid fromA ch
      daemon.networkBlockCount subWallets = SUCCESS) :
    (runAfterShaping crypto v daemon subWallets aaa mixin fee pid fromA ch).selectionRequest =
      some (totalAmountOf aaa fee) := by
  simp only [runAfterShaping]
  rw [if_neg (by simp [h])]
  rcases hb : (buildStage crypto daemon subWallets aaa mixin fee pid fromA).outcome
      with e | tx
  · simp [hb, buildStage_selectionRequest]
  · rcases hrel : daemon.sendTransaction tx.rawTransaction with msg | b
    · simp [hb, hrel, buildStage_selectionRequest]
    · cases b <;> simp [hb, hrel, buildStage_selectionRequest]

/-- When validation passes and the build stage produced a transaction, the
shaped run's result is determined by the relay call on that transaction's
raw bytes: acknowledged success returns the hash, acknowledged `false`
returns DAEMON_ERROR, a thrown transport failure returns DAEMON_OFFLINE. -/
theorem runAfterShaping_relay_cases (tx : CreatedTransaction)
    (hval : validateTransaction v aaa mixin fee pid fromA ch
      daemon.networkBlockCount subWallets = SUCCESS)
    (hbuild : (buildStage crypto daemon subWallets aaa mixin fee pid fromA).outcome =
      Except.ok tx) :
    (daemon.sendTransaction tx.rawTransaction = Except.ok true →
      (runAfterShaping crypto v daemon subWallets aaa mixin fee pid fromA ch).result =
        Except.ok tx.hash) ∧
    (daemon.sendTransaction tx.rawTransaction = Except.ok false →
      (runAfterShaping crypto v daemon subWallets aaa mixin fee pid fromA ch).result =
        Except.error ⟨WalletErrorCode.DAEMON_ERROR, ""⟩) ∧
    (∀ msg, daemon.sendTransaction tx.rawTransaction = Except.error msg →
      (runAfterShaping crypto v daemon subWallets aaa mixin fee pid fromA ch).result =
        Except.error ⟨WalletErrorCode.DAEMON_OFFLINE, ""⟩) := by
  refine ⟨?_, ?_, ?_⟩
  · intro h
    simp only [runAfterShaping, hbuild, h]
    rw [if_neg (by simp [hval])]
  · intro h
    simp only [runAfterShaping, hbuild, h]
    rw [if_neg (by simp [hval])]
  · intro msg h
    simp only [runAfterShaping, hbuild, h]
    rw [if_neg (by simp [hval])]

/-- When the ring-participant resolution succeeded but the build/signing
capability failed with message `msg`, the build stage's outcome is the
wrapped UNKNOWN_ERROR carrying `msg`. -/
theorem buildStage_create_error (ros : List (List RandomOutput)) (msg : String)
    (hdecoys : (getRingParticipants (inputsOf daemon subWallets aaa fee fromA) mixin
      daemon.getRandomOutputsByAmount).1 = Except.ok ros)
    (hcreate : crypto.createTransaction (transfersOf crypto aaa pid).1
      (ourOutputsOf crypto subWallets (inputsOf daemon subWallets aaa fee fromA))
      ros mixin fee (transfersOf crypto aaa pid).2 = Except.error msg) :
    (buildStage crypto daemon subWallets aaa mixin fee pid fromA).outcome =
      Except.error ⟨WalletErrorCode.UNKNOWN_ERROR, msg⟩ := by
  simp only [buildStage, buildOutcome, hdecoys, hcreate]

/-- When validation passes and the build stage failed with error `e`, the
shaped run returns `e` and never attempts the relay call. -/
theorem runAfterShaping_build_error (e : WalletError)
    (hval : validateTransaction v aaa mixin fee pid fromA ch
      daemon.networkBlockCount subWallets = SUCCESS)
    (hbuild : (buildStage crypto daemon subWallets aaa mixin fee pid fromA).outcome =
      Except.error e) :
    (runAfterShaping crypto v daemon subWallets aaa mixin fee pid fromA ch).result =
      Except.error e ∧
    (runAfterShaping crypto v daemon subWallets aaa mixin fee pid fromA ch).relayAttempts = 0 := by
  constructor <;>
    · simp only [runAfterShaping, hbuild]
      rw [if_neg (by simp [hval])]

end SendTheorems

/-- Claim C6: `validateTransaction` runs its stages in the fixed order —
destination validity, integrated-address payment-ID conflict,
funding-address ownership, balance sufficiency, mixin bounds, payment-ID
syntax, change-address ownership — stopping at the first failing stage and
returning that stage's specific error (the stages being pure functions);
and when validation fails, `sendTransactionAdvanced` returns that error
with zero decoy-fetch and zero relay network calls. -/
theorem validateTransaction_gate_chain
    (config : Config) (crypto : CryptoCapability) (v : Validators) (daemon : Daemon)
    (subWallets : SubWallets) (dests : List (String × Nat)) (mixin fee : Nat)
    (pid : String) (fromA : List String) (ch : String) (height : Nat)
    (sw : SubWallets) (arr : List (String × Nat))
    (mixinArg feeArg : Option Nat) (paymentIDArg : Option String)
    (fromArg : Option (List String)) (changeArg : Option String) :
    (validateTransaction v dests mixin fee pid fromA ch height sw =
      firstFailure
        [v.validateDestinations dests,
         v.validateIntegratedAddresses dests pid,
         v.validateOurAddresses fromA sw,
         v.validateAmount dests fee fromA sw height,
         v.validateMixin mixin height,
         v.validatePaymentID pid,
         v.validateOurAddresses [ch] sw]) ∧
    (validateTransaction v (shapedDestinations daemon arr)
        (effectiveMixin config daemon mixinArg) (effectiveFee config feeArg)
        (effectivePaymentID paymentIDArg)
        (effectiveSubWalletsToTakeFrom subWallets fromArg)
        (effectiveChangeAddress subWallets changeArg)
        daemon.networkBlockCount subWallets ≠ SUCCESS →
      sendTransactionAdvanced config crypto v daemon subWallets arr
          mixinArg feeArg paymentIDArg fromArg changeArg =
        ⟨Except.error (validateTransaction v (shapedDestinations daemon arr)
            (effectiveMixin config daemon mixinArg) (effectiveFee config feeArg)
            (effectivePaymentID paymentIDArg)
            (effectiveSubWalletsToTakeFrom subWallets fromArg)
            (effectiveChangeAddress subWallets changeArg)
            daemon.networkBlockCount subWallets),
          shapedDestinations daemon arr, 0, 0, none⟩) := by
  constructor
  · rfl
  · intro h
    rw [sendTransactionAdvanced_eq,
      runAfterShaping_validate_fail crypto v daemon subWallets _ _ _ _ _ _ h]

/-- Claim C6 (witness): validators whose destination stage fails make
`sendTransactionAdvanced` return INVALID_DESTINATION with zero decoy and
relay calls, before any network activity. -/
theorem validateTransaction_gate_chain_witness :
    validateTransaction failDestValidators [("dest", 5)] 0 0 "" ["walletAddr"]
        "walletAddr" 0 smallSubWallets ≠ SUCCESS ∧
    sendTransactionAdvanced zeroConfig trivialCrypto failDestValidators relayOkDaemon
        smallSubWallets [("dest", 5)] (some 0) (some 0) (some "")
        (some ["walletAddr"]) (some "walletAddr") =
      ⟨Except.error ⟨WalletErrorCode.INVALID_DESTINATION, ""⟩, [("dest", 5)],
        0, 0, none⟩ :=
  ⟨by decide,
   (validateTransaction_gate_chain zeroConfig trivialCrypto failDestValidators
      relayOkDaemon smallSubWallets [("dest", 5)] 0 0 "" ["walletAddr"] "walletAddr"
      0 smallSubWallets [("dest", 5)] (some 0) (some 0) (some "")
      (some ["walletAddr"]) (some "walletAddr")).2 (by decide)⟩

/-- Claim C7: with a nonzero advertised node fee, the node-fee destination
is appended to the destination list strictly before the validator is
invoked — the validation outcome the caller sees is computed on the
appended list — and when validation passes, the total requested from input
selection equals the sum of the requested destination amounts plus the
network fee plus the node fee. -/
theorem sendTransactionAdvanced_nodeFee_shaping
    (config : Config) (crypto : CryptoCapability) (v : Validators) (daemon : Daemon)
    (subWallets : SubWallets) (arr : List (String × Nat))
    (mixinArg feeArg : Option Nat) (paymentIDArg : Option String)
    (fromArg : Option (List String)) (changeArg : Option String)
    (hfee : daemon.nodeFee.2 ≠ 0) :
    shapedDestinations daemon arr = arr ++ [(daemon.nodeFee.1, daemon.nodeFee.2)] ∧
    (validateTransaction v (arr ++ [(daemon.nodeFee.1, daemon.nodeFee.2)])
        (effectiveMixin config daemon mixinArg) (effectiveFee config feeArg)
        (effectivePaymentID paymentIDArg)
        (effectiveSubWalletsToTakeFrom subWallets fromArg)
        (effectiveChangeAddress subWallets changeArg)
        daemon.networkBlockCount subWallets ≠ SUCCESS →
      (sendTransactionAdvanced config crypto v daemon subWallets arr
          mixinArg feeArg paymentIDArg fromArg changeArg).result =
        Except.error (validateTransaction v
          (arr ++ [(daemon.nodeFee.1, daemon.nodeFee.2)])
          (effectiveMixin config daemon mixinArg) (effectiveFee config feeArg)
          (effectivePaymentID paymentIDArg)
          (effectiveSubWalletsToTakeFrom subWallets fromArg)
          (effectiveChangeAddress subWallets changeArg)
          daemon.networkBlockCount subWallets)) ∧
    (validateTransaction v (arr ++ [(daemon.nodeFee.1, daemon.nodeFee.2)])
        (effectiveMixin config daemon mixinArg) (effectiveFee config feeArg)
        (effectivePaymentID paymentIDArg)
        (effectiveSubWalletsToTakeFrom subWallets fromArg)
        (effectiveChangeAddress subWallets changeArg)
        daemon.networkBlockCount subWallets = SUCCESS →
      (sendTransactionAdvanced config crypto v daemon subWallets arr
          mixinArg feeArg paymentIDArg fromArg changeArg).selectionRequest =
        some ((arr.map (fun p => p.2)).sum + effectiveFee config feeArg +
          daemon.nodeFee.2)) := by
  have hs : shapedDestinations daemon arr =
      arr ++ [(daemon.nodeFee.1, daemon.nodeFee.2)] := by
    simp only [shapedDestinations, if_pos hfee]
  refine ⟨hs, fun h => ?_, fun h => ?_⟩
  · rw [sendTransactionAdvanced_result, hs,
      runAfterShaping_validate_fail crypto v daemon subWallets _ _ _ _ _ _ h]
  · rw [sendTransactionAdvanced_selectionRequest, hs,
      runAfterShaping_selection crypto v daemon subWallets _ _ _ _ _ _ h]
    simp only [totalAmountOf, List.map_append, List.sum_append, List.map_cons,
      List.map_nil, List.sum_cons, List.sum_nil, Option.some.injEq]
    omega

/-- Claim C7 (witness): with a node fee of 7, one requested destination of
5 and a fee of 2, the destination list is shaped to include the fee
destination and input selection is asked for 5 + 2 + 7 = 14. -/
theorem sendTransactionAdvanced_nodeFee_shaping_witness :
    shapedDestinations feeDaemon [("dest", 5)] = [("dest", 5), ("feeAddr", 7)] ∧
    (sendTransactionAdvanced zeroConfig trivialCrypto okValidators feeDaemon
        smallSubWallets [("dest", 5)] (some 0) (some 2) (some "")
        (some ["walletAddr"]) (some "walletAddr")).selectionRequest = some 14 := by
  have h := sendTransactionAdvanced_nodeFee_shaping zeroConfig trivialCrypto
    okValidators feeDaemon smallSubWallets [("dest", 5)] (some 0) (some 2) (some "")
    (some ["walletAddr"]) (some "walletAddr") (by decide)
  exact ⟨h.1, by rw [h.2.2 (by decide)]; rfl⟩

/-- Claim C8: once validation passed and the build step produced a
transaction, relaying has exactly three outcomes — the daemon
acknowledging success returns the build step's hash unchanged, an
acknowledged `false` returns the relay-class DAEMON_ERROR, and a thrown
transport failure returns the connectivity-class DAEMON_OFFLINE, which is
distinct from the rejection error. -/
theorem sendTransactionAdvanced_relay_outcomes
    (config : Config) (crypto : CryptoCapability) (v : Validators) (daemon : Daemon)
    (subWallets : SubWallets) (arr : List (String × Nat))
    (mixinArg feeArg : Option Nat) (paymentIDArg : Option String)
    (fromArg : Option (List String)) (changeArg : Option String)
    (tx : CreatedTransaction)
    (hval : validateTransaction v (shapedDestinations daemon arr)
      (effectiveMixin config daemon mixinArg) (effectiveFee config feeArg)
      (effectivePaymentID paymentIDArg)
      (effectiveSubWalletsToTakeFrom subWallets fromArg)
      (effectiveChangeAddress subWallets changeArg)
      daemon.networkBlockCount subWallets = SUCCESS)
    (hbuild : (buildStage crypto daemon subWallets (shapedDestinations daemon arr)
      (effectiveMixin config daemon mixinArg) (effectiveFee config feeArg)
      (effectivePaymentID paymentIDArg)
      (effectiveSubWalletsToTakeFrom subWallets fromArg)).outcome = Except.ok tx) :
    (daemon.sendTransaction tx.rawTransaction = Except.ok true →
      (sendTransactionAdvanced config crypto v daemon subWallets arr
        mixinArg feeArg paymentIDArg fromArg changeArg).result = Except.ok tx.hash) ∧
    (daemon.sendTransaction tx.rawTransaction = Except.ok false →
      (sendTransactionAdvanced config crypto v daemon subWallets arr
        mixinArg feeArg paymentIDArg fromArg changeArg).result =
        Except.error ⟨WalletErrorCode.DAEMON_ERROR, ""⟩) ∧
    (∀ msg, daemon.sendTransaction tx.rawTransaction = Except.error msg →
      (sendTransactionAdvanced config crypto v daemon subWallets arr
        mixinArg feeArg paymentIDArg fromArg changeArg).result =
        Except.error ⟨WalletErrorCode.DAEMON_OFFLINE, ""⟩) ∧
    (⟨WalletErrorCode.DAEMON_ERROR, ""⟩ : WalletError) ≠
      ⟨WalletErrorCode.DAEMON_OFFLINE, ""⟩ := by
  have h := runAfterShaping_relay_cases crypto v daemon subWallets
    (shapedDestinations daemon arr) (effectiveMixin config daemon mixinArg)
    (effectiveFee config feeArg) (effectivePaymentID paymentIDArg)
    (effectiveSubWalletsToTakeFrom subWallets fromArg)
    (effectiveChangeAddress subWallets changeArg) tx hval hbuild
  refine ⟨fun hr => ?_, fun hr => ?_, fun msg hr => ?_, by decide⟩
  · rw [sendTransactionAdvanced_result]
    exact h.1 hr
  · rw [sendTransactionAdvanced_result]
    exact h.2.1 hr
  · rw [sendTransactionAdvanced_result]
    exact h.2.2 msg hr

/-- Claim C8 (witness): with a trivially succeeding build step, an
acknowledging daemon returns the built hash, a rejecting daemon returns
DAEMON_ERROR, and a throwing daemon returns DAEMON_OFFLINE. -/
theorem sendTransactionAdvanced_relay_outcomes_witness :
    (sendTransactionAdvanced zeroConfig trivialCrypto okValidators relayOkDaemon
        smallSubWallets [("dest", 5)] (some 0) (some 0) (some "")
        (some ["walletAddr"]) (some "walletAddr")).result = Except.ok "txHash" ∧
    (sendTransactionAdvanced zeroConfig trivialCrypto okValidators relayRejectDaemon
        smallSubWallets [("dest", 5)] (some 0) (some 0) (some "")
        (some ["walletAddr"]) (some "walletAddr")).result =
      Except.error ⟨WalletErrorCode.DAEMON_ERROR, ""⟩ ∧
    (sendTransactionAdvanced zeroConfig trivialCrypto okValidators relayThrowDaemon
        smallSubWallets [("dest", 5)] (some 0) (some 0) (some "")
        (some ["walletAddr"]) (some "walletAddr")).result =
      Except.error ⟨WalletErrorCode.DAEMON_OFFLINE, ""⟩ :=
  ⟨(sendTransactionAdvanced_relay_outcomes zeroConfig trivialCrypto okValidators
      relayOkDaemon smallSubWallets [("dest", 5)] (some 0) (some 0) (some "")
      (some ["walletAddr"]) (some "walletAddr") ⟨"rawBytes", "txHash"⟩ rfl rfl).1 rfl,
   (sendTransactionAdvanced_relay_outcomes zeroConfig trivialCrypto okValidators
      relayRejectDaemon smallSubWallets [("dest", 5)] (some 0) (some 0) (some "")
      (some ["walletAddr"]) (some "walletAddr") ⟨"rawBytes", "txHash"⟩ rfl rfl).2.1 rfl,
   (sendTransactionAdvanced_relay_outcomes zeroConfig trivialCrypto okValidators
      relayThrowDaemon smallSubWallets [("dest", 5)] (some 0) (some 0) (some "")
      (some ["walletAddr"]) (some "walletAddr") ⟨"rawBytes", "txHash"⟩ rfl rfl).2.2.1
      "timeout" rfl⟩

/-- Claim C9: when the ring-participant resolution succeeded but the
build/signing capability fails with message `msg`, `sendTransactionAdvanced`
catches the failure and returns the build-class UNKNOWN_ERROR wallet error
carrying `msg`, and makes no relay call — the fault never escapes as an
unhandled exception (the embedded function is total and returns a
structured outcome). -/
theorem sendTransactionAdvanced_build_failure_wrapped
    (config : Config) (crypto : CryptoCapability) (v : Validators) (daemon : Daemon)
    (subWallets : SubWallets) (arr : List (String × Nat))
    (mixinArg feeArg : Option Nat) (paymentIDArg : Option String)
    (fromArg : Option (List String)) (changeArg : Option String)
    (ros : List (List RandomOutput)) (msg : String)
    (hval : validateTransaction v (shapedDestinations daemon arr)
      (effectiveMixin config daemon mixinArg) (effectiveFee config feeArg)
      (effectivePaymentID paymentIDArg)
      (effectiveSubWalletsToTakeFrom subWallets fromArg)
      (effectiveChangeAddress subWallets changeArg)
      daemon.networkBlockCount subWallets = SUCCESS)
    (hdecoys : (getRingParticipants
      (inputsOf daemon subWallets (shapedDestinations daemon arr)
        (effectiveFee config feeArg) (effectiveSubWalletsToTakeFrom subWallets fromArg))
      (effectiveMixin config daemon mixinArg) daemon.getRandomOutputsByAmount).1 =
      Except.ok ros)
    (hcreate : crypto.createTransaction
      (transfersOf crypto (shapedDestinations daemon arr)
        (effectivePaymentID paymentIDArg)).1
      (ourOutputsOf crypto subWallets
        (inputsOf daemon subWallets (shapedDestinations daemon arr)
          (effectiveFee config feeArg)
          (effectiveSubWalletsToTakeFrom subWallets fromArg)))
      ros (effectiveMixin config daemon mixinArg) (effectiveFee config feeArg)
      (transfersOf crypto (shapedDestinations daemon arr)
        (effectivePaymentID paymentIDArg)).2 = Except.error msg) :
    (sendTransactionAdvanced config crypto v daemon subWallets arr
        mixinArg feeArg paymentIDArg fromArg changeArg).result =
      Except.error ⟨WalletErrorCode.UNKNOWN_ERROR, msg⟩ ∧
    (sendTransactionAdvanced config crypto v daemon subWallets arr
        mixinArg feeArg paymentIDArg fromArg changeArg).relayAttempts = 0 := by
  have hb := buildStage_create_error crypto daemon subWallets
    (shapedDestinations daemon arr) (effectiveMixin config daemon mixinArg)
    (effectiveFee config feeArg) (effectivePaymentID paymentIDArg)
    (effectiveSubWalletsToTakeFrom subWallets fromArg) ros msg hdecoys hcreate
  have h := runAfterShaping_build_error crypto v daemon subWallets
    (shapedDestinations daemon arr) (effectiveMixin config daemon mixinArg)
    (effectiveFee config feeArg) (effectivePaymentID paymentIDArg)
    (effectiveSubWalletsToTakeFrom subWallets fromArg)
    (effectiveChangeAddress subWallets changeArg)
    ⟨WalletErrorCode.UNKNOWN_ERROR, msg⟩ hval hb
  constructor
  · rw [sendTransactionAdvanced_result]
    exact h.1
  · rw [sendTransactionAdvanced_relayAttempts]
    exact h.2

/-- Claim C9 (witness): a crypto capability whose build step always fails
makes `sendTransactionAdvanced` return UNKNOWN_ERROR carrying the failure
message and perform no relay call. -/
theorem sendTransactionAdvanced_build_failure_wrapped_witness :
    (sendTransactionAdvanced zeroConfig failingCrypto okValidators relayOkDaemon
        smallSubWallets [("dest", 5)] (some 0) (some 0) (some "")
        (some ["walletAddr"]) (some "walletAddr")).result =
      Except.error ⟨WalletErrorCode.UNKNOWN_ERROR, "signing capability exploded"⟩ ∧
    (sendTransactionAdvanced zeroConfig failingCrypto okValidators relayOkDaemon
        smallSubWallets [("dest", 5)] (some 0) (some 0) (some "")
        (some ["walletAddr"]) (some "walletAddr")).relayAttempts = 0 :=
  sendTransactionAdvanced_build_failure_wrapped zeroConfig failingCrypto okValidators
    relayOkDaemon smallSubWallets [("dest", 5)] (some 0) (some 0) (some "")
    (some ["walletAddr"]) (some "walletAddr") [] "signing capability exploded"
    rfl rfl rfl

/-- Claim C10: the caller's `addressesAndAmounts` array ends the call in
its shaped state in every outcome branch — with a nonzero advertised node
fee the node-fee destination has been appended to it, so calling the
function again with the resulting array appends the entry a second time,
and with a zero node fee the array is left unchanged. -/
theorem sendTransactionAdvanced_mutates_destinations
    (config : Config) (crypto : CryptoCapability) (v : Validators) (daemon : Daemon)
    (subWallets : SubWallets) (arr : List (String × Nat))
    (mixinArg feeArg : Option Nat) (paymentIDArg : Option String)
    (fromArg : Option (List String)) (changeArg : Option String) :
    (sendTransactionAdvanced config crypto v daemon subWallets arr
        mixinArg feeArg paymentIDArg fromArg changeArg).finalAddressesAndAmounts =
      shapedDestinations daemon arr ∧
    (daemon.nodeFee.2 ≠ 0 →
      shapedDestinations daemon arr =
        arr ++ [(daemon.nodeFee.1, daemon.nodeFee.2)] ∧
      (sendTransactionAdvanced config crypto v daemon subWallets
          ((sendTransactionAdvanced config crypto v daemon subWallets arr
            mixinArg feeArg paymentIDArg fromArg changeArg).finalAddressesAndAmounts)
          mixinArg feeArg paymentIDArg fromArg changeArg).finalAddressesAndAmounts =
        arr ++ [(daemon.nodeFee.1, daemon.nodeFee.2)] ++
          [(daemon.nodeFee.1, daemon.nodeFee.2)]) ∧
    (daemon.nodeFee.2 = 0 →
      (sendTransactionAdvanced config crypto v daemon subWallets arr
        mixinArg feeArg paymentIDArg fromArg changeArg).finalAddressesAndAmounts =
        arr) := by
  refine ⟨rfl, fun h => ?_, fun h => ?_⟩
  · have hs : ∀ l : List (String × Nat), shapedDestinations daemon l =
        l ++ [(daemon.nodeFee.1, daemon.nodeFee.2)] := fun l => by
      simp only [shapedDestinations, if_pos h]
    refine ⟨hs arr, ?_⟩
    show shapedDestinations daemon (shapedDestinations daemon arr) = _
    rw [hs arr, hs (arr ++ [(daemon.nodeFee.1, daemon.nodeFee.2)])]
  · show shapedDestinations daemon arr = arr
    simp only [shapedDestinations]
    rw [if_neg (by simp [h])]

/-- Claim C10 (witness): with a node fee of 7, the caller's array gains
the fee destination, and feeding the resulting array back into a second
call appends it a second time. -/
theorem sendTransactionAdvanced_mutates_destinations_witness :
    (sendTransactionAdvanced zeroConfig trivialCrypto okValidators feeDaemon
        smallSubWallets [("dest", 5)] (some 0) (some 0) (some "")
        (some ["walletAddr"]) (some "walletAddr")).finalAddressesAndAmounts =
      [("dest", 5), ("feeAddr", 7)] ∧
    (sendTransactionAdvanced zeroConfig trivialCrypto okValidators feeDaemon
        smallSubWallets
        ((sendTransactionAdvanced zeroConfig trivialCrypto okValidators feeDaemon
          smallSubWallets [("dest", 5)] (some 0) (some 0) (some "")
          (some ["walletAddr"]) (some "walletAddr")).finalAddressesAndAmounts)
        (some 0) (some 0) (some "") (some ["walletAddr"])
        (some "walletAddr")).finalAddressesAndAmounts =
      [("dest", 5), ("feeAddr", 7), ("feeAddr", 7)] := by
  have h := sendTransactionAdvanced_mutates_destinations zeroConfig trivialCrypto
    okValidators feeDaemon smallSubWallets [("dest", 5)] (some 0) (some 0) (some "")
    (some ["walletAddr"]) (some "walletAddr")
  obtain ⟨hone, htwo⟩ := h.2.1 (by decide)
  exact ⟨h.1.trans hone, htwo⟩

end Transfer
